import Mathlib

/-!
Verification development for the `db-update` Lambda (src/lambda_function.py).

The source is a request handler over an external DynamoDB store.  We give a
shallow embedding: attribute values are a small tagged union, Python dicts are
association lists built with a last-writer-wins insert (mirroring `{k: v, **d}`),
and the external store is a collaborator whose responses (query results, key
schema, per-call success or failure) are an explicit environment.  Stateful
parts (the rate-limit tables `Users` and `RL_AWS`) are explicit state passed
through `check_rate_limit`.  Store calls issued by `db_update` are recorded as
an operation trace so that claims about "no store access" or "inserts
unconditionally" are directly statable.
-/

set_option autoImplicit false

namespace DbUpdate

/-- Attribute values carried in records and update payloads (JSON scalars). -/
inductive AttrVal
  | str (s : String)
  | num (n : Int)
  | bool (b : Bool)
deriving Repr, DecidableEq

/-- Rendering used when the source interpolates a value into an f-string. -/
def AttrVal.render : AttrVal → String
  | .str s => s
  | .num n => toString n
  | .bool b => if b then "True" else "False"

/-- A Python dict of attributes, as an association list (first match wins on
lookup; inserts replace in place, as in Python). -/
abbrev Dict := List (String × AttrVal)

/-- Lookup in a dict: the first binding of the key. -/
def dfind (d : Dict) (k : String) : Option AttrVal :=
  match d with
  | [] => none
  | p :: rest => if p.1 = k then some p.2 else dfind rest k

/-- Python dict insert `d[k] = v`: replace the binding in place if the key is
present, else append it. -/
def dictInsert (d : Dict) (k : String) (v : AttrVal) : Dict :=
  if d.any (fun p => p.1 = k) then
    d.map (fun p => if p.1 = k then (k, v) else p)
  else d ++ [(k, v)]

/-- Python dict union `{**base, **upd}` (used by the source as
`{key_name: key_value, **update_data}`): later entries override. -/
def pyUnion (base upd : Dict) : Dict :=
  upd.foldl (fun d p => dictInsert d p.1 p.2) base

/-! ## Rate limiter (`check_rate_limit`) -/

/-- Item of the `Users` table: the per-account quota attribute `rl_aws`,
possibly absent from the item. -/
structure UserItem where
  rl_aws : Option Nat
deriving Repr, DecidableEq

/-- Item of the `RL_AWS` table: the per-account window counter.  `invocations`
is optional because a stored item might lack the attribute (the source reads it
with `.get('invocations', 0)`). -/
structure RLItem where
  invocations : Option Nat
  ttl : Nat
deriving Repr, DecidableEq

/-- State of the two rate-limit tables, keyed by account id.  `none` means the
table has no item for that key. -/
structure RLState where
  users : String → Option UserItem
  counters : String → Option RLItem

/-- Failure injection for the four store accesses `check_rate_limit` makes.
A `true` flag makes the corresponding call raise, which the source catches
(`ClientError` in the inner handler, anything else in the outer). -/
structure RLFaults where
  usersGetFails : Bool := false
  rlGetFails : Bool := false
  rlUpdateFails : Bool := false
  rlPutFails : Bool := false
deriving Repr, DecidableEq

/-- All store accesses succeed. -/
def noFaults : RLFaults := {}

/-- The denial message built at line 288 of the source. -/
def rlExceededMsg (maxInv : Nat) : String :=
  "Rate limit exceeded. Maximum " ++ toString maxInv ++ " invocations per minute allowed."

/-- The generic failure message returned by both exception handlers of
`check_rate_limit` (lines 311 and 315). -/
def rlInternalMsg : String := "Internal error checking rate limits"

/-- The quota the source computes: `0` when the `Users` item is absent, else
`item.get('rl_aws', 0)`. -/
def effectiveQuota (st : RLState) (account_id : String) : Nat :=
  match st.users account_id with
  | none => 0
  | some u => u.rl_aws.getD 0

/-- Write the counter item for one account, leaving everything else intact
(the effect of `put_item` / `update_item` on `RL_AWS`). -/
def setCounter (st : RLState) (account_id : String) (item : RLItem) : RLState :=
  { st with counters := fun a => if a = account_id then some item else st.counters a }

/-- Shallow embedding of `check_rate_limit` (source lines 243-315).  Returns
the `(is_allowed, error_message)` pair together with the post state.  The
increment `SET invocations = invocations + :inc` fails at the store when the
attribute is absent, which the source surfaces through its inner exception
handler, so that case joins the injected-fault branch. -/
def check_rate_limit (f : RLFaults) (st : RLState) (account_id : String) (now : Nat) :
    (Bool × Option String) × RLState :=
  if f.usersGetFails then ((false, some rlInternalMsg), st)
  else
    let maxInv := effectiveQuota st account_id
    let ttl_time := now + 60 * 1000
    if f.rlGetFails then ((false, some rlInternalMsg), st)
    else
      match st.counters account_id with
      | some item =>
        let cur := item.invocations.getD 0
        if cur ≥ maxInv then ((false, some (rlExceededMsg maxInv)), st)
        else if f.rlUpdateFails || item.invocations.isNone then
          ((false, some rlInternalMsg), st)
        else
          ((true, none), setCounter st account_id { item with invocations := some (cur + 1) })
      | none =>
        if f.rlPutFails then ((false, some rlInternalMsg), st)
        else ((true, none), setCounter st account_id ⟨some 1, ttl_time⟩)

/-- State after `n` successive `check_rate_limit` calls for the same account. -/
def rlRun (f : RLFaults) (st : RLState) (account_id : String) (now : Nat) : Nat → RLState
  | 0 => st
  | n + 1 => (check_rate_limit f (rlRun f st account_id now n) account_id now).2

/-- Result of the `(n+1)`-th successive `check_rate_limit` call. -/
def rlCallResult (f : RLFaults) (st : RLState) (account_id : String) (now : Nat) (n : Nat) :
    Bool × Option String :=
  (check_rate_limit f (rlRun f st account_id now n) account_id now).1

/-- Counter reading the source would see before a call: the stored
`invocations` (defaulted to 0), or 0 when no item exists. -/
def oldCount (st : RLState) (account_id : String) : Nat :=
  match st.counters account_id with
  | some item => item.invocations.getD 0
  | none => 0

/-! ## Update resolver (`db_update`) -/

/-- Responses of the store collaborator for one `db_update` call: the GSI
query result, `describe_table`'s key schema (attribute names in order),
whether `put_item` succeeds, and whether the `update_item` for the item at a
given 1-based position succeeds.  `Except.error` carries the error message of
the raised `ClientError`. -/
structure DBEnv where
  queryResp : Except String (List Dict)
  schemaResp : Except String (List String)
  putResp : Except String Unit
  updateResp : Nat → Bool

/-- A store call issued by `db_update`, recorded in order of issue.  Note that
`putItem` carries no condition: the source's `put_item` has no
`ConditionExpression`, so a put always overwrites. -/
inductive DBOp
  | query (table index keyName : String) (keyValue : AttrVal)
  | describeTable (table : String)
  | putItem (table : String) (item : Dict)
  | updateItem (table : String) (key : Dict) (upd : Dict)
deriving Repr, DecidableEq

/-- The summary dict `db_update` returns.  `none` in an `Option` field means
the key is absent from the Python dict. -/
structure DBResult where
  updated_count : Nat
  total_items : Option Nat := none
  message : Option String := none
  operation : String
  primary_key : Option Dict := none
  errors : Option (List String) := none
  error : Option String := none
deriving Repr, DecidableEq

/-- The success message of the create path (line 120). -/
def createMsg (key_name : String) (key_value : AttrVal) : String :=
  "Created new item with " ++ key_name ++ "=" ++ key_value.render

/-- The summary message of the update path (line 210). -/
def updateMsg (c total : Nat) : String :=
  "Successfully updated " ++ toString c ++ " out of " ++ toString total ++ " items"

/-- Build the primary key of an item from the key schema, in schema order
(lines 96-105 and 173-182): the first key-schema attribute missing from the
item raises `KeyError`, reported here as `.error` carrying that attribute
name. -/
def buildPrimaryKey (schema : List String) (item : Dict) : Except String Dict :=
  match schema with
  | [] => .ok []
  | k :: rest =>
    match dfind item k with
    | none => .error k
    | some v =>
      match buildPrimaryKey rest item with
      | .error m => .error m
      | .ok pk => .ok ((k, v) :: pk)

/-- Outcome of the per-item update loop: successful updates, error entries in
item order, and the `update_item` calls issued. -/
structure LoopOut where
  count : Nat
  errs : List String
  ops : List DBOp
deriving Repr, DecidableEq

/-- The per-item update loop (lines 170-205), `idx` being the 1-based position
of the head item.  A missing key-schema attribute aborts only that item (no
`update_item` issued); a store-level update failure records an error; either
way the loop continues with the rest. -/
def updateLoop (env : DBEnv) (table : String) (schema : List String) (upd : Dict) :
    Nat → List Dict → LoopOut
  | _, [] => ⟨0, [], []⟩
  | idx, item :: rest =>
    let tail := updateLoop env table schema upd (idx + 1) rest
    match buildPrimaryKey schema item with
    | .error k =>
      ⟨tail.count,
       ("Failed to update item " ++ toString idx ++
         ": Item " ++ toString idx ++ " missing required primary key attribute: " ++ k) :: tail.errs,
       tail.ops⟩
    | .ok pk =>
      if env.updateResp idx then
        ⟨tail.count + 1, tail.errs, .updateItem table pk upd :: tail.ops⟩
      else
        ⟨tail.count,
         ("Failed to update item " ++ toString idx ++ ": update error") :: tail.errs,
         .updateItem table pk upd :: tail.ops⟩

/-- Shallow embedding of `db_update` (source lines 40-241).  Returns the
summary dict together with the trace of store calls issued (attempted calls
included).  Control flow follows the source: query the GSI; on an empty
result, build `{key_name: key_value, **update_data}`, fetch the schema,
validate the primary key and put the new item (failures on this path are
caught by the inner handler at line 127, giving `operation = "create_failed"`);
on a non-empty result, fetch the schema once and update every matched item
independently, collecting per-item errors.  A `ClientError` outside the two
inner handlers yields `operation = "error"`. -/
def db_update (env : DBEnv) (table_name key_name : String) (key_value : AttrVal)
    (index_name : String) (update_data : Dict) : DBResult × List DBOp :=
  let qOp := DBOp.query table_name index_name key_name key_value
  match env.queryResp with
  | .error m =>
    ({ updated_count := 0, operation := "error",
       error := some ("DynamoDB error: " ++ m) }, [qOp])
  | .ok items =>
    if items.isEmpty then
      let new_item := pyUnion [(key_name, key_value)] update_data
      match env.schemaResp with
      | .error m =>
        ({ updated_count := 0, operation := "create_failed",
           error := some ("Failed to create new item: " ++ m) },
         [qOp, .describeTable table_name])
      | .ok schema =>
        match buildPrimaryKey schema new_item with
        | .error k =>
          ({ updated_count := 0, operation := "create_failed",
             error := some ("Failed to create new item: Missing required primary key attribute: " ++ k) },
           [qOp, .describeTable table_name])
        | .ok pk =>
          match env.putResp with
          | .error m =>
            ({ updated_count := 0, operation := "create_failed",
               error := some ("Failed to create new item: " ++ m) },
             [qOp, .describeTable table_name, .putItem table_name new_item])
          | .ok _ =>
            ({ updated_count := 1, total_items := some 1,
               message := some (createMsg key_name key_value),
               operation := "create", primary_key := some pk },
             [qOp, .describeTable table_name, .putItem table_name new_item])
    else
      match env.schemaResp with
      | .error m =>
        ({ updated_count := 0, operation := "error",
           error := some ("DynamoDB error: " ++ m) },
         [qOp, .describeTable table_name])
      | .ok schema =>
        let lo := updateLoop env table_name schema update_data 1 items
        let base : DBResult :=
          { updated_count := lo.count, total_items := some items.length,
            message := some (updateMsg lo.count items.length), operation := "update" }
        ((if lo.errs.isEmpty then base else { base with errors := some lo.errs }),
         [qOp, .describeTable table_name] ++ lo.ops)

/-! ## Handler (`lambda_handler`) -/

/-- The `update_data` field of a parsed body: a JSON object, or some other
JSON value (which the handler rejects at line 356). -/
inductive UpdField
  | dict (d : Dict)
  | nondict
deriving Repr, DecidableEq

/-- A parsed request body; each field is `none` when the key is absent. -/
structure ReqBody where
  table_name : Option String
  key_name : Option String
  key_value : Option AttrVal
  index_name : Option String
  update_data : Option UpdField
  account_id : Option String
deriving Repr, DecidableEq

/-- The raw request body: unparseable JSON, or a parsed object. -/
inductive RawBody
  | malformed
  | parsed (b : ReqBody)
deriving Repr, DecidableEq

/-- The incoming event; `body = none` models an absent (or empty, hence falsy)
`event['body']`. -/
structure Event where
  body : Option RawBody
deriving Repr, DecidableEq

/-- The field list of line 345, in source order. -/
def requiredFields : List String :=
  ["table_name", "key_name", "key_value", "index_name", "update_data", "account_id"]

/-- Whether a named required field is present in the body. -/
def fieldPresent (b : ReqBody) (f : String) : Bool :=
  if f = "table_name" then b.table_name.isSome
  else if f = "key_name" then b.key_name.isSome
  else if f = "key_value" then b.key_value.isSome
  else if f = "index_name" then b.index_name.isSome
  else if f = "update_data" then b.update_data.isSome
  else if f = "account_id" then b.account_id.isSome
  else true

/-- The `missing_fields` comprehension of line 346. -/
def missingFields (b : ReqBody) : List String :=
  requiredFields.filter (fun f => !(fieldPresent b f))

/-- A response body: `{'error': msg}`, the 429 body (which carries the rate
limiter's message plus a fixed retry note), or the serialized `db_update`
summary. -/
inductive HBody
  | errMsg (msg : String)
  | rateLimited (e : Option String)
  | ok (r : DBResult)
deriving Repr, DecidableEq

/-- Handler output: the HTTP response, the post state of the rate-limit
tables, whether `check_rate_limit` was invoked, and the store calls issued by
`db_update`. -/
structure HOut where
  statusCode : Nat
  body : HBody
  rl : RLState
  rlChecked : Bool
  dbOps : List DBOp

/-- Inputs the handler threads to its collaborators: rate-limit table state,
fault injection for the rate limiter's store calls, the update resolver's
store environment, and the current time in milliseconds. -/
structure SysIn where
  rl : RLState
  faults : RLFaults
  env : DBEnv
  now : Nat

/-- Shallow embedding of `lambda_handler` (source lines 317-417): body
presence, JSON parse, required fields, `update_data` type, account-id
truthiness, rate limit, then `db_update`; a result with a truthy `'error'`
entry becomes a 500, anything else a 200.  The final two match arms are
unreachable because the missing-fields guard has established that every field
is present. -/
def lambda_handler (inp : SysIn) (event : Event) : HOut :=
  match event.body with
  | none => ⟨400, .errMsg "Request body is required", inp.rl, false, []⟩
  | some .malformed => ⟨400, .errMsg "Invalid JSON in request body", inp.rl, false, []⟩
  | some (.parsed b) =>
    if missingFields b ≠ [] then
      ⟨400, .errMsg ("Missing required fields: " ++ String.intercalate ", " (missingFields b)),
       inp.rl, false, []⟩
    else
      match b.update_data with
      | some .nondict => ⟨400, .errMsg "update_data must be a dictionary", inp.rl, false, []⟩
      | some (.dict ud) =>
        match b.table_name, b.key_name, b.key_value, b.index_name, b.account_id with
        | some tn, some kn, some kv, some ix, some acct =>
          if acct = "" then ⟨400, .errMsg "Account ID is required", inp.rl, false, []⟩
          else
            let chk := check_rate_limit inp.faults inp.rl acct inp.now
            if chk.1.1 = false then
              ⟨429, .rateLimited chk.1.2, chk.2, true, []⟩
            else
              let du := db_update inp.env tn kn kv ix ud
              match du.1.error with
              | some e => ⟨500, .errMsg e, chk.2, true, du.2⟩
              | none => ⟨200, .ok du.1, chk.2, true, du.2⟩
        | _, _, _, _, _ => ⟨400, .errMsg "", inp.rl, false, []⟩
      | none => ⟨400, .errMsg "", inp.rl, false, []⟩

/-! ## Dictionary lemmas -/

theorem dfind_map_replace_self (d : Dict) (k : String) (v : AttrVal)
    (h : d.any (fun p => p.1 = k) = true) :
    dfind (d.map (fun p => if p.1 = k then (k, v) else p)) k = some v := by
  induction d with
  | nil => simp at h
  | cons p rest ih =>
    by_cases hp : p.1 = k
    · simp [dfind, hp]
    · simp only [List.any_cons, decide_eq_true_eq, Bool.or_eq_true] at h
      rcases h with h | h
      · exact absurd h hp
      · simp only [List.map_cons, if_neg hp, dfind, hp, if_false]
        exact ih h

theorem dfind_map_replace_ne (d : Dict) (k k' : String) (v : AttrVal) (hne : k ≠ k') :
    dfind (d.map (fun p => if p.1 = k then (k, v) else p)) k' = dfind d k' := by
  induction d with
  | nil => rfl
  | cons p rest ih =>
    by_cases hp : p.1 = k
    · have hp' : p.1 ≠ k' := by rw [hp]; exact hne
      simp only [List.map_cons, if_pos hp, dfind, if_neg hne, if_neg hp']
      exact ih
    · simp only [List.map_cons, if_neg hp, dfind]
      by_cases hpk : p.1 = k'
      · simp [hpk]
      · simp only [if_neg hpk]
        exact ih

theorem dfind_none_of_not_any (d : Dict) (k : String)
    (h : d.any (fun p => p.1 = k) = false) : dfind d k = none := by
  induction d with
  | nil => rfl
  | cons p rest ih =>
    simp only [List.any_cons, Bool.or_eq_false_iff, decide_eq_false_iff_not] at h
    simp only [dfind, if_neg h.1]
    exact ih h.2

theorem dfind_append_single (d : Dict) (k k' : String) (v : AttrVal) :
    dfind (d ++ [(k, v)]) k' =
      ((dfind d k').or (if k = k' then some v else none)) := by
  induction d with
  | nil => simp [dfind]
  | cons p rest ih =>
    by_cases hp : p.1 = k'
    · simp [dfind, hp]
    · simp only [List.cons_append, dfind, if_neg hp]
      exact ih

/-- Semantics of the Python in-place insert: the inserted key now maps to `v`,
every other key is untouched. -/
theorem dfind_dictInsert (d : Dict) (k k' : String) (v : AttrVal) :
    dfind (dictInsert d k v) k' = if k = k' then some v else dfind d k' := by
  unfold dictInsert
  by_cases hany : d.any (fun p => p.1 = k) = true
  · rw [if_pos hany]
    by_cases hk : k = k'
    · subst hk
      simp [dfind_map_replace_self d k v hany]
    · rw [if_neg hk]
      exact dfind_map_replace_ne d k k' v hk
  · rw [if_neg hany]
    rw [dfind_append_single]
    have hfalse : d.any (fun p => p.1 = k) = false := Bool.eq_false_iff.mpr hany
    by_cases hk : k = k'
    · subst hk
      rw [dfind_none_of_not_any d k hfalse, if_pos rfl]
      rfl
    · rw [if_neg hk, if_neg hk]
      cases dfind d k' <;> rfl

theorem dfind_none_of_not_mem (d : Dict) (k : String)
    (h : k ∉ d.map Prod.fst) : dfind d k = none := by
  induction d with
  | nil => rfl
  | cons p rest ih =>
    simp only [List.map_cons, List.mem_cons, not_or] at h
    have hne : p.1 ≠ k := fun he => h.1 he.symm
    simp only [dfind, if_neg hne]
    exact ih h.2

/-- Semantics of the Python dict union: a key bound in `upd` gets its `upd`
value, anything else falls back to `base` (assuming `upd` itself has no
duplicate keys, as a parsed JSON object does). -/
theorem dfind_pyUnion (base upd : Dict) (hnd : (upd.map Prod.fst).Nodup) (k : String) :
    dfind (pyUnion base upd) k = (dfind upd k).or (dfind base k) := by
  induction upd generalizing base with
  | nil => simp [pyUnion, dfind]
  | cons p rest ih =>
    simp only [List.map_cons, List.nodup_cons] at hnd
    have hstep : pyUnion base (p :: rest) = pyUnion (dictInsert base p.1 p.2) rest := rfl
    rw [hstep, ih (dictInsert base p.1 p.2) hnd.2]
    by_cases hk : p.1 = k
    · subst hk
      rw [dfind_none_of_not_mem rest p.1 hnd.1]
      simp [dfind, dfind_dictInsert]
    · rw [dfind_dictInsert, if_neg hk]
      simp only [dfind, if_neg hk]

/-! ## Primary-key and loop lemmas -/

/-- Spec-side characterization: every key-schema attribute occurs in the
item. -/
def pkPresent (schema : List String) (item : Dict) : Bool :=
  schema.all (fun k => (dfind item k).isSome)

theorem pkPresent_of_ok (schema : List String) (item : Dict) (pk : Dict)
    (h : buildPrimaryKey schema item = .ok pk) : pkPresent schema item = true := by
  induction schema generalizing pk with
  | nil => rfl
  | cons k rest ih =>
    unfold buildPrimaryKey at h
    cases hf : dfind item k with
    | none => rw [hf] at h; exact absurd h (by simp)
    | some v =>
      rw [hf] at h
      cases hr : buildPrimaryKey rest item with
      | error m => rw [hr] at h; exact absurd h (by simp)
      | ok pk' =>
        simp only [pkPresent, List.all_cons, Bool.and_eq_true]
        exact ⟨by simp [hf], ih pk' hr⟩

theorem pkAbsent_of_error (schema : List String) (item : Dict) :
    ∀ k, buildPrimaryKey schema item = .error k → pkPresent schema item = false := by
  induction schema with
  | nil => intro k h; exact absurd h (by simp [buildPrimaryKey])
  | cons a rest ih =>
    intro k h
    unfold buildPrimaryKey at h
    cases hf : dfind item a with
    | none => simp [pkPresent, hf]
    | some v =>
      rw [hf] at h
      cases hr : buildPrimaryKey rest item with
      | error m =>
        simp only [pkPresent, List.all_cons, Bool.and_eq_false_iff]
        exact Or.inr (ih m hr)
      | ok pk' => rw [hr] at h; exact absurd h (by simp)

/-- Whether the item at (1-based) position `idx` fails: its own key-schema
attributes are incomplete, or the store rejects its update. -/
def itemFails (env : DBEnv) (schema : List String) (idx : Nat) (item : Dict) : Bool :=
  !(pkPresent schema item) || !(env.updateResp idx)

/-- Number of items of the batch that fail, counting from position `idx`. -/
def countFailed (env : DBEnv) (schema : List String) : Nat → List Dict → Nat
  | _, [] => 0
  | idx, item :: rest =>
    (if itemFails env schema idx item then 1 else 0) + countFailed env schema (idx + 1) rest

theorem countFailed_le (env : DBEnv) (schema : List String) :
    ∀ (idx : Nat) (items : List Dict), countFailed env schema idx items ≤ items.length := by
  intro idx items
  induction items generalizing idx with
  | nil => simp [countFailed]
  | cons item rest ih =>
    simp only [countFailed, List.length_cons]
    have := ih (idx + 1)
    by_cases h : itemFails env schema idx item <;> simp [h] <;> omega

/-- The per-item loop succeeds on exactly the non-failing items and records
one error entry per failing item, in every suffix of the batch. -/
theorem updateLoop_spec (env : DBEnv) (table : String) (schema : List String) (upd : Dict) :
    ∀ (idx : Nat) (items : List Dict),
      (updateLoop env table schema upd idx items).count =
        items.length - countFailed env schema idx items ∧
      (updateLoop env table schema upd idx items).errs.length =
        countFailed env schema idx items := by
  intro idx items
  induction items generalizing idx with
  | nil => simp [updateLoop, countFailed]
  | cons item rest ih =>
    have htail := ih (idx + 1)
    have hle := countFailed_le env schema (idx + 1) rest
    cases hb : buildPrimaryKey schema item with
    | error k =>
      have hfail : itemFails env schema idx item = true := by
        simp [itemFails, pkAbsent_of_error schema item k hb]
      simp only [updateLoop, hb, countFailed, hfail, if_pos, List.length_cons,
        List.length]
      constructor
      · rw [htail.1]; omega
      · simp only [List.length_cons, htail.2]; omega
    | ok pk =>
      have hp : pkPresent schema item = true := pkPresent_of_ok schema item pk hb
      by_cases hu : env.updateResp idx
      · have hfail : itemFails env schema idx item = false := by
          simp [itemFails, hp, hu]
        simp only [updateLoop, hb, hu, if_pos, countFailed, hfail, if_neg,
          List.length_cons, Bool.false_eq_true, if_false]
        constructor
        · rw [htail.1]; omega
        · simpa using htail.2
      · have hfail : itemFails env schema idx item = true := by
          simp [itemFails, hp, hu]
        simp only [updateLoop, hb, hu, countFailed, hfail, if_pos,
          List.length_cons, Bool.false_eq_true, if_false]
        constructor
        · rw [htail.1]; omega
        · simp only [List.length_cons, htail.2]; omega

/-! ## Message lemmas -/

theorem strDataAppend (s t : String) : (s ++ t).data = s.data ++ t.data := rfl

/-- The generic internal-error message can never coincide with a
quota-exceeded message: their lengths differ for every quota. -/
theorem rlMsg_distinct (m : Nat) : rlInternalMsg ≠ rlExceededMsg m := by
  intro h
  have hlen := congrArg String.length h
  rw [rlInternalMsg, rlExceededMsg, String.length_append, String.length_append] at hlen
  have h1 : String.length "Rate limit exceeded. Maximum " = 29 := by decide
  have h2 : String.length " invocations per minute allowed." = 32 := by decide
  have h3 : String.length "Internal error checking rate limits" = 35 := by decide
  rw [h1, h2, h3] at hlen
  omega

theorem createMsg_head (kn : String) (kv : AttrVal) :
    (createMsg kn kv).data.head? = some 'C' := by
  have h1 : (createMsg kn kv).data =
      "Created new item with ".data ++ (kn.data ++ ("=".data ++ kv.render.data)) := by
    simp [createMsg, strDataAppend, List.append_assoc]
  have h2 : "Created new item with ".data = 'C' :: "reated new item with ".data := by decide
  rw [h1, h2]
  rfl

theorem updateMsg_head (c total : Nat) :
    (updateMsg c total).data.head? = some 'S' := by
  have h1 : (updateMsg c total).data =
      "Successfully updated ".data ++
        ((toString c).data ++ (" out of ".data ++ ((toString total).data ++ " items".data))) := by
    simp [updateMsg, strDataAppend, List.append_assoc]
  have h2 : "Successfully updated ".data = 'S' :: "uccessfully updated ".data := by decide
  rw [h1, h2]
  rfl

/-- The create-path message and the update-path message never coincide: one
starts with `C`, the other with `S`. -/
theorem createMsg_ne_updateMsg (kn : String) (kv : AttrVal) (c total : Nat) :
    createMsg kn kv ≠ updateMsg c total := by
  intro h
  have hh := congrArg (fun s => s.data.head?) h
  simp only [createMsg_head, updateMsg_head] at hh
  exact absurd hh (by decide)

/-! ## Rate-limiter helper lemmas -/

/-- Whenever a `check_rate_limit` call is allowed, the post state holds a
counter item for that account whose `invocations` is one more than the count
the call read (the stored count, or 0 when no item existed). -/
theorem check_allowed_increments (f : RLFaults) (st : RLState) (acct : String) (now : Nat)
    (h : ((check_rate_limit f st acct now).1).1 = true) :
    ∃ item, (check_rate_limit f st acct now).2.counters acct = some item ∧
      item.invocations = some (oldCount st acct + 1) := by
  unfold check_rate_limit at h ⊢
  by_cases h1 : f.usersGetFails
  · simp [h1] at h
  · simp only [h1, Bool.false_eq_true, if_false] at h ⊢
    by_cases h2 : f.rlGetFails
    · simp [h2] at h
    · simp only [h2, Bool.false_eq_true, if_false] at h ⊢
      cases hc : st.counters acct with
      | none =>
        rw [hc] at h
        by_cases h4 : f.rlPutFails
        · simp [h4] at h
        · simp only [h4, Bool.false_eq_true, if_false]
          exact ⟨⟨some 1, now + 60 * 1000⟩, by simp [setCounter], by simp [oldCount, hc]⟩
      | some item =>
        rw [hc] at h
        by_cases h3 : item.invocations.getD 0 ≥ effectiveQuota st acct
        · simp [h3] at h
        · simp only [if_neg h3] at h ⊢
          by_cases h5 : (f.rlUpdateFails || item.invocations.isNone) = true
          · simp only [h5, if_true] at h
            simp at h
          · simp only [h5, if_false, Bool.false_eq_true]
            exact ⟨⟨some (item.invocations.getD 0 + 1), item.ttl⟩,
              by simp [setCounter], by simp [oldCount, hc]⟩

theorem noFaults_usersGet : noFaults.usersGetFails = false := rfl

theorem noFaults_rlGet : noFaults.rlGetFails = false := rfl

theorem noFaults_rlUpdate : noFaults.rlUpdateFails = false := rfl

theorem noFaults_rlPut : noFaults.rlPutFails = false := rfl

/-- The function `check_rate_limit` never touches the `Users` table. -/
theorem check_preserves_users (f : RLFaults) (st : RLState) (acct : String) (now : Nat) :
    ((check_rate_limit f st acct now).2).users = st.users := by
  unfold check_rate_limit
  dsimp only
  repeat' split
  all_goals rfl

/-- Fault-free runs from a provisioned account with no counter: after `i ≤ Q`
calls the quota entry is untouched and the counter reads exactly `i`. -/
theorem rlRun_invariant (Q : Nat) (st : RLState) (acct : String) (now : Nat)
    (hu : st.users acct = some ⟨some Q⟩) (hc : st.counters acct = none) :
    ∀ i, i ≤ Q →
      (rlRun noFaults st acct now i).users acct = some ⟨some Q⟩ ∧
      (rlRun noFaults st acct now i).counters acct =
        (if i = 0 then none else some ⟨some i, now + 60 * 1000⟩) := by
  intro i
  induction i with
  | zero => intro _; exact ⟨hu, by simp [rlRun, hc]⟩
  | succ n ihn =>
    intro hle
    have hn := ihn (Nat.le_of_succ_le hle)
    have hquota : effectiveQuota (rlRun noFaults st acct now n) acct = Q := by
      simp [effectiveQuota, hn.1]
    have husers : ((check_rate_limit noFaults (rlRun noFaults st acct now n) acct now).2).users acct
        = some ⟨some Q⟩ := by
      rw [check_preserves_users]; exact hn.1
    by_cases hz : n = 0
    · subst hz
      have hcn : (rlRun noFaults st acct now 0).counters acct = none := by simpa using hn.2
      refine ⟨husers, ?_⟩
      show ((check_rate_limit noFaults (rlRun noFaults st acct now 0) acct now).2).counters acct = _
      unfold check_rate_limit
      simp [noFaults_usersGet, noFaults_rlGet, noFaults_rlPut, hcn, setCounter]
    · have hcs : (rlRun noFaults st acct now n).counters acct =
          some ⟨some n, now + 60 * 1000⟩ := by
        rw [hn.2, if_neg hz]
      have hlt : n < Q := Nat.lt_of_succ_le hle
      refine ⟨husers, ?_⟩
      show ((check_rate_limit noFaults (rlRun noFaults st acct now n) acct now).2).counters acct = _
      unfold check_rate_limit
      simp [noFaults_usersGet, noFaults_rlGet, noFaults_rlUpdate, hcs, hquota,
        setCounter, Nat.not_le.mpr hlt]

/-! ## Claim C1 -/

/-- One concrete rate-limit state: no quota record, no counter record. -/
def c1St : RLState := ⟨fun _ => none, fun _ => none⟩

/-- Claim C1, counterexample: for an account with no quota record and no
counter record yet, `check` returns Allowed (and even creates the counter),
while the claim demands Denied on every call.  The first call of a window is
therefore admitted despite the zero default quota. -/
theorem C1_counterexample :
    (check_rate_limit noFaults c1St "a" 0).1 = (true, none) ∧
    (check_rate_limit noFaults c1St "a" 0).2.counters "a" = some ⟨some 1, 60000⟩ := by
  constructor <;> rfl

/-- Claim C1 (amended): an account with no quota record is Denied on every
call for which a counter record already exists — whatever its count and
whatever store faults occur — but when no counter record exists the call is
Allowed and creates the counter at 1, so the fail-closed default only bites
from the second call of a window onward. -/
theorem C1_amended (st : RLState) (acct : String) (now : Nat)
    (hu : st.users acct = none) :
    (∀ (f : RLFaults) (item : RLItem), st.counters acct = some item →
      ((check_rate_limit f st acct now).1).1 = false) ∧
    (st.counters acct = none →
      (check_rate_limit noFaults st acct now).1 = (true, none) ∧
      (check_rate_limit noFaults st acct now).2.counters acct = some ⟨some 1, now + 60 * 1000⟩) := by
  constructor
  · intro f item hc
    unfold check_rate_limit
    by_cases h1 : f.usersGetFails
    · simp [h1]
    · have hq : effectiveQuota st acct = 0 := by simp [effectiveQuota, hu]
      by_cases h2 : f.rlGetFails
      · simp [h1, h2]
      · simp [h1, h2, hc, hq]
  · intro hc
    unfold check_rate_limit
    constructor
    · simp [noFaults, hc]
    · simp [noFaults, hc, setCounter]

/-- Witness for `C1_amended` at a concrete state with an existing counter. -/
def c1DenySt : RLState := ⟨fun _ => none, fun _ => some ⟨some 5, 0⟩⟩

/-- Claim C1 witness: with no quota record and a counter holding 5, the call
is denied. -/
theorem C1_amended_witness :
    ((check_rate_limit noFaults c1DenySt "a" 7).1).1 = false :=
  (C1_amended c1DenySt "a" 7 rfl).1 noFaults ⟨some 5, 0⟩ rfl

/-! ## Claim C4 -/

/-- Concrete state for the C4 counterexample: quota configured as 0, no
counter. -/
def c4ZeroSt : RLState := ⟨fun _ => some ⟨some 0⟩, fun _ => none⟩

/-- Claim C4, counterexample: with configured quota `Q = 0` and no counter
record, the claim says the `(Q+1)`-th, i.e. first, call is Denied; the code
allows it, because the no-record branch creates the counter without comparing
against the quota. -/
theorem C4_counterexample :
    (check_rate_limit noFaults c4ZeroSt "a" 0).1 = (true, none) := by
  rfl

/-- Claim C4 (amended): for a fixed account with configured quota `Q ≥ 1` and
no existing counter record, a fault-free sequence of `check` calls within one
window is Allowed for the first `Q` calls and Denied (quota-exceeded) on the
`(Q+1)`-th; after the first call the counter exists with `invocations = 1`,
and each subsequent allowed call increments it by exactly 1 (the counter after
the `(i+1)`-th call reads `i+1`).  For `Q = 0` the first call is still
Allowed, as the counterexample shows. -/
theorem C4_amended (Q : Nat) (st : RLState) (acct : String) (now : Nat)
    (hQ : 1 ≤ Q) (hu : st.users acct = some ⟨some Q⟩) (hc : st.counters acct = none) :
    (∀ i, i < Q →
      rlCallResult noFaults st acct now i = (true, none) ∧
      (rlRun noFaults st acct now (i + 1)).counters acct =
        some ⟨some (i + 1), now + 60 * 1000⟩) ∧
    rlCallResult noFaults st acct now Q = (false, some (rlExceededMsg Q)) := by
  have hinv := rlRun_invariant Q st acct now hu hc
  constructor
  · intro i hi
    have hsi := hinv i (Nat.le_of_lt hi)
    have hquota : effectiveQuota (rlRun noFaults st acct now i) acct = Q := by
      simp [effectiveQuota, hsi.1]
    constructor
    · unfold rlCallResult
      by_cases hz : i = 0
      · subst hz
        have hcn : (rlRun noFaults st acct now 0).counters acct = none := by
          simpa using hsi.2
        unfold check_rate_limit
        simp [noFaults_usersGet, noFaults_rlGet, noFaults_rlPut, hcn]
      · have hcs : (rlRun noFaults st acct now i).counters acct =
            some ⟨some i, now + 60 * 1000⟩ := by rw [hsi.2, if_neg hz]
        unfold check_rate_limit
        simp [noFaults_usersGet, noFaults_rlGet, noFaults_rlUpdate, hcs, hquota,
          Nat.not_le.mpr hi]
    · have := (hinv (i + 1) (Nat.succ_le_of_lt hi)).2
      rw [this, if_neg (Nat.succ_ne_zero i)]
  · have hsq := hinv Q (Nat.le_refl Q)
    have hquota : effectiveQuota (rlRun noFaults st acct now Q) acct = Q := by
      simp [effectiveQuota, hsq.1]
    have hcs : (rlRun noFaults st acct now Q).counters acct =
        some ⟨some Q, now + 60 * 1000⟩ := by
      rw [hsq.2, if_neg (by omega : Q ≠ 0)]
    unfold rlCallResult check_rate_limit
    simp [noFaults_usersGet, noFaults_rlGet, hcs, hquota]

/-- Concrete state for the C4 witness: quota 2, no counter. -/
def c4St : RLState := ⟨fun a => if a = "a" then some ⟨some 2⟩ else none, fun _ => none⟩

/-- Claim C4 witness: quota 2 — calls 1 and 2 are allowed, call 3 is denied
with the quota-exceeded message, and the counter reads 1 then 2. -/
theorem C4_amended_witness :
    rlCallResult noFaults c4St "a" 5 0 = (true, none) ∧
    (rlRun noFaults c4St "a" 5 1).counters "a" = some ⟨some 1, 60005⟩ ∧
    rlCallResult noFaults c4St "a" 5 1 = (true, none) ∧
    (rlRun noFaults c4St "a" 5 2).counters "a" = some ⟨some 2, 60005⟩ ∧
    rlCallResult noFaults c4St "a" 5 2 = (false, some (rlExceededMsg 2)) := by
  have h := C4_amended 2 c4St "a" 5 (by decide) rfl rfl
  exact ⟨(h.1 0 (by decide)).1, (h.1 0 (by decide)).2,
    (h.1 1 (by decide)).1, (h.1 1 (by decide)).2, h.2⟩

/-! ## Claim C7 -/

/-- Claim C7 (confirmed): when a counter record exists and its invocation
count has reached the effective quota, the call is Denied with the
quota-exceeded message naming that maximum, and the whole state — the counter
in particular — is returned unchanged: no increment happens on denial. -/
theorem C7_deny_frame (f : RLFaults) (st : RLState) (acct : String) (now : Nat) (item : RLItem)
    (hf1 : f.usersGetFails = false) (hf2 : f.rlGetFails = false)
    (hc : st.counters acct = some item)
    (hge : effectiveQuota st acct ≤ item.invocations.getD 0) :
    check_rate_limit f st acct now =
      ((false, some (rlExceededMsg (effectiveQuota st acct))), st) := by
  unfold check_rate_limit
  simp [hf1, hf2, hc, hge]

/-- Concrete state for the C7 witness: quota 2, counter at 3. -/
def c7St : RLState :=
  ⟨fun _ => some ⟨some 2⟩, fun _ => some ⟨some 3, 11⟩⟩

/-- Claim C7 witness: quota 2, counter 3 — denied naming maximum 2, state
untouched. -/
theorem C7_deny_frame_witness :
    check_rate_limit noFaults c7St "a" 9 =
      ((false, some (rlExceededMsg (effectiveQuota c7St "a"))), c7St) :=
  C7_deny_frame noFaults c7St "a" 9 ⟨some 3, 11⟩ rfl rfl rfl (by decide)

/-! ## Claim C8 -/

/-- Claim C8 (confirmed): whenever one of the store accesses the call actually
performs fails — the quota read, the counter read, the increment of an
existing below-quota counter (including the increment of a counter item whose
`invocations` attribute is absent, which the store rejects), or the creation
of a missing counter — the call returns Denied with the generic internal-error
message, which differs from every quota-exceeded message.  The embedding is a
total function, so no exception escapes `check_rate_limit`. -/
theorem C8_store_failure_denied (f : RLFaults) (st : RLState) (acct : String) (now : Nat)
    (h : f.usersGetFails = true ∨
      (f.usersGetFails = false ∧ f.rlGetFails = true) ∨
      (f.usersGetFails = false ∧ f.rlGetFails = false ∧
        ∃ item, st.counters acct = some item ∧
          item.invocations.getD 0 < effectiveQuota st acct ∧
          (f.rlUpdateFails = true ∨ item.invocations = none)) ∨
      (f.usersGetFails = false ∧ f.rlGetFails = false ∧
        st.counters acct = none ∧ f.rlPutFails = true)) :
    (check_rate_limit f st acct now).1 = (false, some rlInternalMsg) ∧
    ∀ m, rlInternalMsg ≠ rlExceededMsg m := by
  refine ⟨?_, rlMsg_distinct⟩
  unfold check_rate_limit
  rcases h with h1 | ⟨h1, h2⟩ | ⟨h1, h2, item, hc, hlt, hbad⟩ | ⟨h1, h2, hc, h4⟩
  · simp [h1]
  · simp [h1, h2]
  · have hnot : ¬(effectiveQuota st acct ≤ item.invocations.getD 0) := Nat.not_le.mpr hlt
    have hbb : (f.rlUpdateFails || item.invocations.isNone) = true := by
      rcases hbad with hb | hb <;> simp [hb]
    simp [h1, h2, hc, hnot, hbb]
  · simp [h1, h2, hc, h4]

/-- A state for the C8 witness. -/
def c8St : RLState := ⟨fun _ => some ⟨some 4⟩, fun _ => some ⟨some 1, 0⟩⟩

/-- Claim C8 witness: a failing increment of a below-quota counter yields the
generic internal-error denial, distinct from the quota-exceeded message for
quota 4. -/
theorem C8_store_failure_denied_witness :
    (check_rate_limit ⟨false, false, true, false⟩ c8St "a" 0).1 =
      (false, some rlInternalMsg) ∧ rlInternalMsg ≠ rlExceededMsg 4 := by
  have h := C8_store_failure_denied ⟨false, false, true, false⟩ c8St "a" 0
    (Or.inr (Or.inr (Or.inl ⟨rfl, rfl, ⟨some 1, 0⟩, rfl, by decide, Or.inl rfl⟩)))
  exact ⟨h.1, h.2 4⟩

/-! ## Claim C5 -/

/-- Claim C5 (confirmed): in indexed mode, when the query returns `N ≥ 1`
items of which `M < N` individually fail — a failing item being one that
misses one of its own key-schema attributes or whose store update is rejected
— the result is the `update` outcome with `updated_count = N - M`,
`total_items = N`, one error entry per failed item, no overall `error`, and
every item accounted for (`updated_count + |errors| = N`): no failure aborts
the remaining items. -/
theorem C5_partial_batch (env : DBEnv) (table_name key_name : String) (key_value : AttrVal)
    (index_name : String) (update_data : Dict) (items : List Dict) (schema : List String)
    (hq : env.queryResp = .ok items) (hs : env.schemaResp = .ok schema)
    (hne : items ≠ [])
    (hM : countFailed env schema 1 items < items.length) :
    (db_update env table_name key_name key_value index_name update_data).1.operation
        = "update" ∧
    (db_update env table_name key_name key_value index_name update_data).1.updated_count
        = items.length - countFailed env schema 1 items ∧
    (db_update env table_name key_name key_value index_name update_data).1.total_items
        = some items.length ∧
    ((db_update env table_name key_name key_value index_name update_data).1.errors.getD
        []).length = countFailed env schema 1 items ∧
    (db_update env table_name key_name key_value index_name update_data).1.updated_count +
      ((db_update env table_name key_name key_value index_name update_data).1.errors.getD
        []).length = items.length ∧
    (db_update env table_name key_name key_value index_name update_data).1.error = none := by
  have hloop := updateLoop_spec env table_name schema update_data 1 items
  have hempty : items.isEmpty = false := by
    cases items with
    | nil => exact absurd rfl hne
    | cons a l => rfl
  unfold db_update
  rw [hq]
  simp only [hempty, Bool.false_eq_true, if_false, hs]
  have hle := countFailed_le env schema 1 items
  by_cases he : (updateLoop env table_name schema update_data 1 items).errs.isEmpty
  · have herrs : (updateLoop env table_name schema update_data 1 items).errs = [] :=
      List.isEmpty_iff.mp he
    have hzero : countFailed env schema 1 items = 0 := by
      rw [← hloop.2, herrs]; rfl
    simp [he, hloop.1, hzero]
  · simp [he, hloop.1, hloop.2]
    omega

/-- Concrete environment for the C5 witness: two matched items, the second
missing the key attribute, store updates succeeding. -/
def c5Env : DBEnv :=
  ⟨.ok [[("id", .str "a"), ("s", .num 0)], [("x", .num 1)]], .ok ["id"], .ok (), fun _ => true⟩

/-- Claim C5 witness: N = 2, M = 1: one update succeeds, one per-item error,
total 2, no overall error. -/
theorem C5_partial_batch_witness :
    (db_update c5Env "T" "cust" (AttrVal.str "v") "IX" [("s", AttrVal.num 7)]).1.updated_count
        = 1 ∧
    (db_update c5Env "T" "cust" (AttrVal.str "v") "IX" [("s", AttrVal.num 7)]).1.total_items
        = some 2 ∧
    ((db_update c5Env "T" "cust" (AttrVal.str "v") "IX" [("s", AttrVal.num 7)]).1.errors.getD
        []).length = 1 ∧
    (db_update c5Env "T" "cust" (AttrVal.str "v") "IX" [("s", AttrVal.num 7)]).1.error
        = none := by
  have h := C5_partial_batch c5Env "T" "cust" (AttrVal.str "v") "IX" [("s", AttrVal.num 7)]
    [[("id", AttrVal.str "a"), ("s", AttrVal.num 0)], [("x", AttrVal.num 1)]] ["id"]
    rfl rfl (by decide) (by decide)
  exact ⟨h.2.1, h.2.2.1, h.2.2.2.1, h.2.2.2.2.2⟩

/-! ## Claim C6 -/

/-- Claim C6 (confirmed): in indexed mode with an empty query result, the
synthesized record is exactly `{key_name: key_value}` overridden by the
updates mapping; if every key-schema attribute is present in it and the put
succeeds, the result is the `create` outcome carrying the new record's primary
key (with counts 1/1) and the unconditional `putItem` of that record is
issued; if a key-schema attribute is missing, the result is the
missing-primary-key failure and no put is issued. -/
theorem C6_create_on_miss (env : DBEnv) (table_name key_name : String) (key_value : AttrVal)
    (index_name : String) (update_data : Dict) (schema : List String)
    (hq : env.queryResp = .ok []) (hs : env.schemaResp = .ok schema)
    (hnd : (update_data.map Prod.fst).Nodup) :
    (∀ k, dfind (pyUnion [(key_name, key_value)] update_data) k =
      (dfind update_data k).or (if key_name = k then some key_value else none)) ∧
    (∀ pk, buildPrimaryKey schema (pyUnion [(key_name, key_value)] update_data) = .ok pk →
      env.putResp = .ok () →
      (db_update env table_name key_name key_value index_name update_data).1 =
        { updated_count := 1, total_items := some 1,
          message := some (createMsg key_name key_value),
          operation := "create", primary_key := some pk } ∧
      DBOp.putItem table_name (pyUnion [(key_name, key_value)] update_data) ∈
        (db_update env table_name key_name key_value index_name update_data).2) ∧
    (∀ k, buildPrimaryKey schema (pyUnion [(key_name, key_value)] update_data) = .error k →
      (db_update env table_name key_name key_value index_name update_data).1.operation
          = "create_failed" ∧
      (db_update env table_name key_name key_value index_name update_data).1.updated_count
          = 0 ∧
      (db_update env table_name key_name key_value index_name update_data).1.error =
        some ("Failed to create new item: Missing required primary key attribute: " ++ k) ∧
      ∀ it, DBOp.putItem table_name it ∉
        (db_update env table_name key_name key_value index_name update_data).2) := by
  refine ⟨?_, ?_, ?_⟩
  · intro k
    rw [dfind_pyUnion _ _ hnd]
    simp [dfind]
  · intro pk hpk hput
    unfold db_update
    rw [hq]
    simp [hs, hpk, hput]
  · intro k hk
    unfold db_update
    rw [hq]
    simp [hs, hk]

/-- Concrete environment for the C6 witness: empty query result, simple key
schema, put succeeding. -/
def c6Env : DBEnv := ⟨.ok [], .ok ["id"], .ok (), fun _ => true⟩

/-- Claim C6 witness: creating `{id: "C1", status: "shipped"}` yields the
`create` outcome with primary key `{id: "C1"}` and the put of exactly that
record. -/
theorem C6_create_on_miss_witness :
    dfind (pyUnion [("id", AttrVal.str "C1")] [("status", AttrVal.str "shipped")]) "status"
        = some (AttrVal.str "shipped") ∧
    (db_update c6Env "T" "id" (AttrVal.str "C1") "IX" [("status", AttrVal.str "shipped")]).1 =
      { updated_count := 1, total_items := some 1,
        message := some (createMsg "id" (AttrVal.str "C1")),
        operation := "create", primary_key := some [("id", AttrVal.str "C1")] } ∧
    DBOp.putItem "T" (pyUnion [("id", AttrVal.str "C1")] [("status", AttrVal.str "shipped")]) ∈
      (db_update c6Env "T" "id" (AttrVal.str "C1") "IX" [("status", AttrVal.str "shipped")]).2 := by
  have h := C6_create_on_miss c6Env "T" "id" (AttrVal.str "C1") "IX"
    [("status", AttrVal.str "shipped")] ["id"] rfl rfl (by decide)
  have h2 := h.2.1 [("id", AttrVal.str "C1")] rfl rfl
  exact ⟨by rw [h.1 "status"]; decide, h2.1, h2.2⟩

/-! ## Claim C9 -/

/-- Concrete environments for the C9 counterexample. -/
def c9CreateEnv : DBEnv := ⟨.ok [], .ok ["id"], .ok (), fun _ => true⟩

def c9UpdateEnv : DBEnv :=
  ⟨.ok [[("id", AttrVal.str "x"), ("status", AttrVal.str "old")]], .ok ["id"], .ok (),
   fun _ => true⟩

/-- Claim C9, counterexample: a successful create and a successful one-record
update indeed both carry `updated_count = 1` and `total_items = 1`, but they
are NOT distinguishable only by the operation field and the primary key: the
human-readable `message` entries of the two results also differ. -/
theorem C9_counterexample :
    (db_update c9CreateEnv "T" "id" (AttrVal.str "C1") "IX"
        [("status", AttrVal.str "shipped")]).1.updated_count = 1 ∧
    (db_update c9CreateEnv "T" "id" (AttrVal.str "C1") "IX"
        [("status", AttrVal.str "shipped")]).1.total_items = some 1 ∧
    (db_update c9UpdateEnv "T" "id" (AttrVal.str "x") "IX"
        [("status", AttrVal.str "shipped")]).1.updated_count = 1 ∧
    (db_update c9UpdateEnv "T" "id" (AttrVal.str "x") "IX"
        [("status", AttrVal.str "shipped")]).1.total_items = some 1 ∧
    (db_update c9CreateEnv "T" "id" (AttrVal.str "C1") "IX"
        [("status", AttrVal.str "shipped")]).1.message ≠
      (db_update c9UpdateEnv "T" "id" (AttrVal.str "x") "IX"
        [("status", AttrVal.str "shipped")]).1.message := by
  refine ⟨rfl, rfl, rfl, rfl, ?_⟩
  decide

/-- Claim C9 (amended): the create-on-miss success outcome carries
`updated_count = 1` and `total_items = 1`, the same count fields as a
successful one-record update; the two outcomes are distinguished by the
operation field (`create` vs `update`), the returned primary key (present vs
absent), and additionally the human-readable message text, which never
coincides between the two paths. -/
theorem C9_amended (env1 env2 : DBEnv) (t1 kn1 ix1 t2 kn2 ix2 : String)
    (kv1 kv2 : AttrVal) (ud1 ud2 : Dict) (item : Dict)
    (schema1 schema2 : List String) (pk1 pk2 : Dict)
    (hq1 : env1.queryResp = .ok []) (hs1 : env1.schemaResp = .ok schema1)
    (hpk1 : buildPrimaryKey schema1 (pyUnion [(kn1, kv1)] ud1) = .ok pk1)
    (hput : env1.putResp = .ok ())
    (hq2 : env2.queryResp = .ok [item]) (hs2 : env2.schemaResp = .ok schema2)
    (hpk2 : buildPrimaryKey schema2 item = .ok pk2) (hupd : env2.updateResp 1 = true) :
    (db_update env1 t1 kn1 kv1 ix1 ud1).1.updated_count = 1 ∧
    (db_update env1 t1 kn1 kv1 ix1 ud1).1.total_items = some 1 ∧
    (db_update env2 t2 kn2 kv2 ix2 ud2).1.updated_count = 1 ∧
    (db_update env2 t2 kn2 kv2 ix2 ud2).1.total_items = some 1 ∧
    (db_update env1 t1 kn1 kv1 ix1 ud1).1.operation = "create" ∧
    (db_update env2 t2 kn2 kv2 ix2 ud2).1.operation = "update" ∧
    (db_update env1 t1 kn1 kv1 ix1 ud1).1.primary_key = some pk1 ∧
    (db_update env2 t2 kn2 kv2 ix2 ud2).1.primary_key = none ∧
    (db_update env1 t1 kn1 kv1 ix1 ud1).1.message = some (createMsg kn1 kv1) ∧
    (db_update env2 t2 kn2 kv2 ix2 ud2).1.message = some (updateMsg 1 1) ∧
    (db_update env1 t1 kn1 kv1 ix1 ud1).1.message ≠
      (db_update env2 t2 kn2 kv2 ix2 ud2).1.message := by
  have hred1 : (db_update env1 t1 kn1 kv1 ix1 ud1).1 =
      { updated_count := 1, total_items := some 1,
        message := some (createMsg kn1 kv1),
        operation := "create", primary_key := some pk1 } := by
    unfold db_update
    rw [hq1]
    simp only [List.isEmpty_nil, if_true, hs1, hpk1, hput]
  have hloop2 : updateLoop env2 t2 schema2 ud2 1 [item] =
      ⟨1, [], [DBOp.updateItem t2 pk2 ud2]⟩ := by
    unfold updateLoop
    simp only [hpk2, hupd, if_true]
    rfl
  have hred2 : (db_update env2 t2 kn2 kv2 ix2 ud2).1 =
      { updated_count := 1, total_items := some 1,
        message := some (updateMsg 1 1),
        operation := "update" } := by
    unfold db_update
    rw [hq2]
    simp [hs2, hloop2]
  rw [hred1, hred2]
  refine ⟨rfl, rfl, rfl, rfl, rfl, rfl, rfl, rfl, rfl, rfl, ?_⟩
  intro h
  exact createMsg_ne_updateMsg kn1 kv1 1 1 (Option.some.inj h)

/-- Claim C9 witness for the amended statement, at the concrete environments
of the counterexample. -/
theorem C9_amended_witness :
    (db_update c9CreateEnv "T" "id" (AttrVal.str "C1") "IX"
        [("status", AttrVal.str "shipped")]).1.operation = "create" ∧
    (db_update c9UpdateEnv "T" "id" (AttrVal.str "x") "IX"
        [("status", AttrVal.str "shipped")]).1.operation = "update" ∧
    (db_update c9CreateEnv "T" "id" (AttrVal.str "C1") "IX"
        [("status", AttrVal.str "shipped")]).1.primary_key
      = some [("id", AttrVal.str "C1")] := by
  have h := C9_amended c9CreateEnv c9UpdateEnv "T" "id" "IX" "T" "id" "IX"
    (AttrVal.str "C1") (AttrVal.str "x")
    [("status", AttrVal.str "shipped")] [("status", AttrVal.str "shipped")]
    [("id", AttrVal.str "x"), ("status", AttrVal.str "old")]
    ["id"] ["id"] [("id", AttrVal.str "C1")] [("id", AttrVal.str "x")]
    rfl rfl rfl rfl rfl rfl rfl rfl
  exact ⟨h.2.2.2.2.1, h.2.2.2.2.2.1, h.2.2.2.2.2.2.1⟩

/-! ## Handler reduction -/

/-- On a body that passes every validation step, the handler reduces to the
rate-limit check followed by the update resolver, returning 429, 500 or 200. -/
theorem lambda_handler_valid (inp : SysIn) (b : ReqBody)
    (tn kn ix acct : String) (kv : AttrVal) (ud : Dict)
    (h1 : b.table_name = some tn) (h2 : b.key_name = some kn) (h3 : b.key_value = some kv)
    (h4 : b.index_name = some ix) (h5 : b.update_data = some (UpdField.dict ud))
    (h6 : b.account_id = some acct) (hacct : acct ≠ "") :
    lambda_handler inp ⟨some (.parsed b)⟩ =
      (if ((check_rate_limit inp.faults inp.rl acct inp.now).1).1 = false then
        ⟨429, .rateLimited ((check_rate_limit inp.faults inp.rl acct inp.now).1).2,
         (check_rate_limit inp.faults inp.rl acct inp.now).2, true, []⟩
      else
        match (db_update inp.env tn kn kv ix ud).1.error with
        | some e => ⟨500, .errMsg e,
            (check_rate_limit inp.faults inp.rl acct inp.now).2, true,
            (db_update inp.env tn kn kv ix ud).2⟩
        | none => ⟨200, .ok (db_update inp.env tn kn kv ix ud).1,
            (check_rate_limit inp.faults inp.rl acct inp.now).2, true,
            (db_update inp.env tn kn kv ix ud).2⟩) := by
  have hmf : missingFields b = [] := by
    simp [missingFields, requiredFields, fieldPresent, h1, h2, h3, h4, h5, h6]
  unfold lambda_handler
  dsimp only
  rw [hmf]
  rw [if_neg (by simp)]
  rw [h5]
  dsimp only
  rw [h1, h2, h3, h4, h6]
  dsimp only
  rw [if_neg hacct]

/-! ## Claim C2 -/

/-- Concrete scene for C2: quota 5, no counter yet, valid body whose
`update_data` is the empty mapping, index query matching nothing. -/
def c2Rl : RLState := ⟨fun _ => some ⟨some 5⟩, fun _ => none⟩

def c2Env : DBEnv := ⟨.ok [], .ok ["id"], .ok (), fun _ => true⟩

def c2Body : ReqBody :=
  ⟨some "T", some "id", some (.str "v"), some "IX", some (.dict []), some "acct"⟩

def c2In : SysIn := ⟨c2Rl, noFaults, c2Env, 0⟩

/-- Claim C2 (behavior at the failing input): a request whose update mapping
is empty is NOT rejected — the handler answers 200, the rate-limit tables are
read and the counter is consumed, the index query and the schema fetch are
issued, and (the query matching nothing) a bare record holding only the key
attribute is even created.  The spec requires rejection before any store
access; the code has no emptiness check at all. -/
theorem C2_empty_update_reaches_store :
    (lambda_handler c2In ⟨some (.parsed c2Body)⟩).statusCode = 200 ∧
    (lambda_handler c2In ⟨some (.parsed c2Body)⟩).rlChecked = true ∧
    (lambda_handler c2In ⟨some (.parsed c2Body)⟩).dbOps =
      [.query "T" "IX" "id" (.str "v"), .describeTable "T",
       .putItem "T" [("id", AttrVal.str "v")]] ∧
    (lambda_handler c2In ⟨some (.parsed c2Body)⟩).rl.counters "acct" =
      some ⟨some 1, 60000⟩ := by
  refine ⟨rfl, rfl, rfl, rfl⟩

/-! ## Claim C3 -/

/-- Concrete scene for C3: a body supplying key name and key value but no
index name. -/
def c3Body : ReqBody :=
  ⟨some "T", some "id", some (.str "v"), none, some (.dict [("a", AttrVal.num 1)]),
   some "acct"⟩

def c3In : SysIn :=
  ⟨⟨fun _ => some ⟨some 5⟩, fun _ => none⟩, noFaults, ⟨.ok [], .ok ["id"], .ok (), fun _ => true⟩, 0⟩

/-- Claim C3, counterexample: the program offers no direct resolution mode.
A request carrying a key name and key value but no index name is rejected as
a missing-field validation error: status 400, no store call issued, the rate
limiter never consulted — not the claimed single conditional update. -/
theorem C3_counterexample :
    (lambda_handler c3In ⟨some (.parsed c3Body)⟩).statusCode = 400 ∧
    (lambda_handler c3In ⟨some (.parsed c3Body)⟩).body =
      .errMsg "Missing required fields: index_name" ∧
    (lambda_handler c3In ⟨some (.parsed c3Body)⟩).dbOps = [] ∧
    (lambda_handler c3In ⟨some (.parsed c3Body)⟩).rlChecked = false := by
  refine ⟨rfl, by decide, rfl, rfl⟩

/-- Claim C3 (amended): the program has no direct resolution mode — a request
without an index name is rejected as a missing-field validation error before
the rate limiter or the store is touched; every resolution goes through the
index query, and when that query fails at the store the outcome is the
store-level `error` failure (carrying the store's message, with no primary
key), never `Created`. -/
theorem C3_amended (inp : SysIn) (b : ReqBody) (hix : b.index_name = none) :
    (lambda_handler inp ⟨some (.parsed b)⟩).statusCode = 400 ∧
    (lambda_handler inp ⟨some (.parsed b)⟩).dbOps = [] ∧
    (lambda_handler inp ⟨some (.parsed b)⟩).rlChecked = false ∧
    ∀ (env : DBEnv) (tn kn ix m : String) (kv : AttrVal) (ud : Dict),
      env.queryResp = .error m →
      (db_update env tn kn kv ix ud).1.operation = "error" ∧
      (db_update env tn kn kv ix ud).1.error = some ("DynamoDB error: " ++ m) ∧
      (db_update env tn kn kv ix ud).1.primary_key = none := by
  have hne : missingFields b ≠ [] := by
    intro h0
    have hall := List.filter_eq_nil_iff.mp h0 "index_name" (by simp [requiredFields])
    apply hall
    simp [fieldPresent, hix]
  have hh : lambda_handler inp ⟨some (.parsed b)⟩ =
      ⟨400, .errMsg ("Missing required fields: " ++
        String.intercalate ", " (missingFields b)), inp.rl, false, []⟩ := by
    unfold lambda_handler
    dsimp only
    rw [if_pos hne]
  refine ⟨by rw [hh], by rw [hh], by rw [hh], ?_⟩
  intro env tn kn ix m kv ud hqe
  unfold db_update
  rw [hqe]
  exact ⟨rfl, rfl, rfl⟩

/-- An environment whose index query fails, for the C3 witness. -/
def c3FailEnv : DBEnv := ⟨.error "boom", .ok [], .ok (), fun _ => true⟩

/-- Claim C3 witness: the concrete index-less request is rejected with 400 and
no store operation, and a concrete failing query yields the `error` outcome. -/
theorem C3_amended_witness :
    (lambda_handler c3In ⟨some (.parsed c3Body)⟩).statusCode = 400 ∧
    (lambda_handler c3In ⟨some (.parsed c3Body)⟩).dbOps = [] ∧
    (db_update c3FailEnv "T" "id" (AttrVal.str "v") "IX" []).1.operation = "error" ∧
    (db_update c3FailEnv "T" "id" (AttrVal.str "v") "IX" []).1.error =
      some ("DynamoDB error: " ++ "boom") :=
  ⟨(C3_amended c3In c3Body rfl).1, (C3_amended c3In c3Body rfl).2.1,
   ((C3_amended c3In c3Body rfl).2.2.2 c3FailEnv "T" "id" "IX" "boom"
     (AttrVal.str "v") [] rfl).1,
   ((C3_amended c3In c3Body rfl).2.2.2 c3FailEnv "T" "id" "IX" "boom"
     (AttrVal.str "v") [] rfl).2.1⟩

/-! ## Claim C10 -/

/-- Claim C10 (confirmed): for every request that passes validation and whose
rate-limit check allows it, the post-handler rate-limit state holds the
account's counter incremented to one more than what the check read (so a
fresh counter reads 1), for EVERY resolver environment — in particular, when
`db_update` reports an error and the handler answers 500, the consumed quota
unit is not rolled back.  The increment precedes the resolver by
construction: `db_update` never touches the rate-limit state. -/
theorem C10_quota_consumed (inp : SysIn) (b : ReqBody)
    (tn kn ix acct : String) (kv : AttrVal) (ud : Dict)
    (h1 : b.table_name = some tn) (h2 : b.key_name = some kn) (h3 : b.key_value = some kv)
    (h4 : b.index_name = some ix) (h5 : b.update_data = some (UpdField.dict ud))
    (h6 : b.account_id = some acct) (hacct : acct ≠ "")
    (hallow : ((check_rate_limit inp.faults inp.rl acct inp.now).1).1 = true) :
    (∃ item, (lambda_handler inp ⟨some (.parsed b)⟩).rl.counters acct = some item ∧
      item.invocations = some (oldCount inp.rl acct + 1)) ∧
    (lambda_handler inp ⟨some (.parsed b)⟩).rlChecked = true ∧
    ∀ e, (db_update inp.env tn kn kv ix ud).1.error = some e →
      (lambda_handler inp ⟨some (.parsed b)⟩).statusCode = 500 := by
  have hred := lambda_handler_valid inp b tn kn ix acct kv ud h1 h2 h3 h4 h5 h6 hacct
  rw [hallow] at hred
  simp only [Bool.true_eq_false, if_false] at hred
  have hinc := check_allowed_increments inp.faults inp.rl acct inp.now hallow
  cases hdu : (db_update inp.env tn kn kv ix ud).1.error with
  | some e =>
    rw [hdu] at hred
    refine ⟨?_, by rw [hred], ?_⟩
    · rw [hred]; exact hinc
    · intro e' _; rw [hred]
  | none =>
    rw [hdu] at hred
    refine ⟨?_, by rw [hred], ?_⟩
    · rw [hred]; exact hinc
    · intro e' he'
      exact absurd he' (by simp)

/-- Concrete scene for the C10 witness: quota 1, no counter (so the check
allows and creates the counter at 1), resolver environment whose query fails
(so the handler answers 500). -/
def c10Rl : RLState := ⟨fun _ => some ⟨some 1⟩, fun _ => none⟩

def c10Env : DBEnv := ⟨.error "kaboom", .ok [], .ok (), fun _ => true⟩

def c10Body : ReqBody :=
  ⟨some "T", some "id", some (.str "v"), some "IX", some (.dict [("a", AttrVal.num 1)]),
   some "acct"⟩

def c10In : SysIn := ⟨c10Rl, noFaults, c10Env, 3⟩

/-- Claim C10 witness: the failing update yields a 500 response while the
account's counter now reads 1 — the quota unit is consumed. -/
theorem C10_quota_consumed_witness :
    (∃ item, (lambda_handler c10In ⟨some (.parsed c10Body)⟩).rl.counters "acct" = some item ∧
      item.invocations = some (oldCount c10Rl "acct" + 1)) ∧
    (lambda_handler c10In ⟨some (.parsed c10Body)⟩).statusCode = 500 := by
  have h := C10_quota_consumed c10In c10Body "T" "id" "IX" "acct" (AttrVal.str "v")
    [("a", AttrVal.num 1)] rfl rfl rfl rfl rfl rfl (by decide) rfl
  exact ⟨h.1, h.2.2 ("DynamoDB error: " ++ "kaboom") rfl⟩

end DbUpdate
